import Mathlib

/-!
Verification development for the near-mpc-oracle repository.

The shallow embedding below translates the algorithmic core of the
repository into Lean:

* `NearMpcOracle.NearContractService` — state of the singleton signing
  service (src/src/services/nearContractService.ts), its constructor and
  its `signBalanceSnapshot` round trip.  The two external `ethers`
  primitives it uses (EIP-712 typed-data hashing and ECDSA address
  recovery) and the outcome of the remote NEAR contract call are
  parameters of the embedding, since they are library / network
  collaborators, not code of this repository.
* `NearMpcOracle.jsParseInt` — the exact effect of JavaScript
  `parseInt` on a decimal numeral whose mathematical value is `n`:
  the result is the IEEE-754 double nearest to `n` (round to nearest,
  ties to even), which is `n` itself exactly when `n ≤ 2^53`.
  (Values far beyond u128 that would overflow to Infinity are outside
  every use in this code base and are not modelled.)
* `NearMpcOracle.deriveAgentAddress` — the off-chain identity
  derivation script (src/derive-agent-address.ts and the identical
  routine in src/verify-agent-address.ts), parameterised over the
  secp256k1 / SHA3 / keccak library primitives it composes.
* `NearMpcOracle.BalanceFetcher` — the balance-aggregation module
  (src/src/services/balanceFetcher.ts): token-address resolution with
  static fallback table and process-lifetime cache, per-chain and
  per-vault balance reads with the BAD_DATA-as-zero policy, the
  Promise.all fan-outs, and `aggregateBalances`.  Each RPC call's
  outcome is a parameter (`Except` value); `Promise.all` is modelled by
  its result semantics: the list of all results when every branch
  fulfils, an error when any branch rejects (no partial list exists in
  either case, which is what the claims about it assert).

JavaScript numeric strings (decimal renderings of bigints) are
modelled by their numeric value in `Nat`; byte buffers by `List Nat`
with values below 256 (`Buffer.from` wrapping is `% 256`).
-/

deriving instance DecidableEq for Except

namespace NearMpcOracle

/-- ASCII lower-casing of one character, as JavaScript
`String.prototype.toLowerCase` acts on the ASCII-only address and key
strings used throughout this code base. -/
def lowerChar (c : Char) : Char :=
  if 'A' ≤ c ∧ c ≤ 'Z' then Char.ofNat (c.toNat + 32) else c

/-- JavaScript `s.toLowerCase()` on an ASCII string. -/
def toLowerCase (s : String) : String :=
  String.mk (s.data.map lowerChar)

/-- Bytes of an ASCII string (every string hashed or compared in this
code base is ASCII, where UTF-8 bytes and char codes coincide). -/
def asciiBytes (s : String) : List Nat :=
  s.data.map Char.toNat

/-- Node `Buffer.from(array)`: every entry is truncated to an octet
(wrap-around modulo 256). -/
def bufferFrom (l : List Nat) : List Nat :=
  l.map (fun b => b % 256)

/-- Fuel-bounded base-2 logarithm (structural recursion, so that the
kernel can evaluate it on concrete inputs). -/
def log2Aux : Nat → Nat → Nat
  | 0, _ => 0
  | fuel + 1, n => if n ≤ 1 then 0 else log2Aux fuel (n / 2) + 1

/-- Base-2 logarithm of a positive number (floor); 1100 iterations
cover every value below 2^1100, far beyond the double range. -/
def natLog2 (n : Nat) : Nat := log2Aux 1100 n

/-- JavaScript `parseInt` applied to the decimal rendering of the
natural number `n`: the mathematical integer is converted to an IEEE-754
double, i.e. rounded to 53 significant bits, round to nearest with ties
to even.  Exact for `n ≤ 2^53`. -/
def jsParseInt (n : Nat) : Nat :=
  if n ≤ 2 ^ 53 then n
  else
    let shift := natLog2 n - 52
    let q := n / 2 ^ shift
    let r := n % 2 ^ shift
    let half := 2 ^ (shift - 1)
    if half < r ∨ (r = half ∧ q % 2 = 1) then (q + 1) * 2 ^ shift else q * 2 ^ shift

/-- Snapshot record handed to `signBalanceSnapshot`
(`CrossChainBalanceSnapshot` in the source).  In the source `balance`,
`nonce` and `deadline` are decimal strings produced from bigints;
they are modelled by their numeric values. -/
structure CrossChainBalanceSnapshot where
  balance : Nat
  nonce : Nat
  deadline : Nat
  assets : String
  receiver : String
deriving DecidableEq, Repr

/-- Inner argument object built at nearContractService.ts lines 81-92:
the fields typed `u128`/`u64` on the contract side are JSON numbers,
`assets` and `receiver` stay strings. -/
structure SnapshotDigestArgs where
  balance : Nat
  chain_id : Nat
  verifying_contract : String
  nonce : Nat
  deadline : Nat
  assets : String
  receiver : String
deriving DecidableEq, Repr

/-- Full argument object of the remote
`build_and_sign_crosschain_balance_snapshot_tx` call. -/
structure SignCallArgs where
  args : SnapshotDigestArgs
  callback_gas_tgas : Nat
deriving DecidableEq, Repr

/-- Construction of the remote-call arguments (nearContractService.ts
lines 81-92): `parseInt` on the decimal strings for `balance`, `nonce`
and `deadline`, pass-through for `assets` and `receiver`, the JS number
`chainId` for `chain_id`, and the constant 50 for `callback_gas_tgas`. -/
def buildSignArgs (snapshot : CrossChainBalanceSnapshot) (vaultAddress : String)
    (chainId : Nat) : SignCallArgs :=
  { args :=
      { balance := jsParseInt snapshot.balance
        chain_id := chainId
        verifying_contract := vaultAddress
        nonce := jsParseInt snapshot.nonce
        deadline := jsParseInt snapshot.deadline
        assets := snapshot.assets
        receiver := snapshot.receiver }
    callback_gas_tgas := 50 }

/-- EIP-712 domain object built at nearContractService.ts lines 158-163. -/
structure TypedDataDomain where
  name : String
  version : String
  chainId : Nat
  verifyingContract : String
deriving DecidableEq, Repr

/-- The domain used for the local digest recomputation. -/
def snapshotDomain (chainId : Nat) (vaultAddress : String) : TypedDataDomain :=
  { name := "AaveVault", version := "1", chainId := chainId,
    verifyingContract := vaultAddress }

/-- External `ethers` primitives used by the signing service: EIP-712
typed-data hashing over the fixed `CrossChainBalanceSnapshot` type
(balance, nonce, deadline, assets as uint256, receiver as address, in
that order) and ECDSA public-key recovery to an address.  They are
library collaborators, so the embedding is parametric in them. -/
structure EthersPrims where
  hashTypedData : TypedDataDomain → CrossChainBalanceSnapshot → String
  recoverAddress : String → List Nat → String

/-- Result record of a successful `signBalanceSnapshot`
(`MpcSignatureResponse` in the source); the signature is kept as its
65 bytes. -/
structure MpcSignatureResponse where
  signature : List Nat
  agentAddress : String
deriving DecidableEq, Repr

/-- Hard-coded agent address of the signing service
(nearContractService.ts line 18). -/
def AGENT_ADDRESS : String := "0x20f2747bbc52453ac0774b5b2fe0e28dc6637f30"

/-- Environment configuration read by the service constructor; `none`
stands for an unset (or empty, hence falsy) variable. -/
structure EnvConfig where
  NEAR_ACCOUNT_ID : Option String
  NEAR_PRIVATE_KEY : Option String
  NEAR_CONTRACT_ID : Option String
  NEAR_RPC_URL : Option String

/-- State of the `NearContractService` singleton. -/
structure NearContractService where
  nearContractId : String
  nearAccountId : String
  agentAddress : String
  isInitialized : Bool
deriving DecidableEq, Repr

/-- The constructor (nearContractService.ts lines 22-37): requires
`NEAR_ACCOUNT_ID`, `NEAR_PRIVATE_KEY` and `NEAR_CONTRACT_ID`; the
`agentAddress` field is initialised to the fixed literal regardless of
the environment. -/
def NearContractService.construct (env : EnvConfig) :
    Except String NearContractService :=
  match env.NEAR_ACCOUNT_ID, env.NEAR_PRIVATE_KEY with
  | some accountId, some _ =>
    match env.NEAR_CONTRACT_ID with
    | some contractId =>
      .ok { nearContractId := contractId
            nearAccountId := accountId
            agentAddress := AGENT_ADDRESS
            isInitialized := false }
    | none => .error "NEAR_CONTRACT_ID required in .env"
  | _, _ =>
    .error "NEAR credentials required: Set NEAR_ACCOUNT_ID and NEAR_PRIVATE_KEY in .env"

/-- The `initialize` method (lines 39-49): installs the key pair and
flips `isInitialized`; every other field, the agent address included,
is untouched. -/
def NearContractService.initService (svc : NearContractService) :
    NearContractService :=
  { svc with isInitialized := true }

/-- The `getAgentAddress` method (lines 51-53). -/
def NearContractService.getAgentAddress (svc : NearContractService) : String :=
  svc.agentAddress

/-- Assembly of the final 65-byte signature from the decoded response
(nearContractService.ts lines 143-154): split as r(32) ‖ s(32) ‖
recoveryId(1), then r ‖ s ‖ v with `v = recoveryId + 27` — the
`new Uint8Array([v])` constructor truncates `v` to an octet, hence the
`% 256`. -/
def buildSignature65 (signatureBytes : List Nat) : List Nat :=
  let r := signatureBytes.take 32
  let s := (signatureBytes.drop 32).take 32
  let recoveryId := signatureBytes.getD 64 0
  let v := recoveryId + 27
  r ++ s ++ [v % 256]

/-- Decoding of the parsed byte array returned by the remote signer
(lines 135-155): `Buffer.from` wraps entries to octets, any length
other than 65 is rejected, and a 65-byte buffer is reassembled with
the converted recovery byte. -/
def decodeSignature (signatureArray : List Nat) : Except String (List Nat) :=
  let signatureBytes := bufferFrom signatureArray
  if signatureBytes.length ≠ 65 then
    .error ("Invalid signature length: " ++ toString signatureBytes.length ++
      ", expected 65")
  else
    .ok (buildSignature65 signatureBytes)

/-- Verification tail of `signBalanceSnapshot` (lines 157-199):
recompute the EIP-712 digest locally, recover the signer from the
digest and the reassembled signature, fail unless it equals the
expected agent address case-insensitively, otherwise return the
signature together with the agent address. -/
def verifyAndPackage (E : EthersPrims) (agentAddress : String)
    (snapshot : CrossChainBalanceSnapshot) (vaultAddress : String)
    (chainId : Nat) (signature65 : List Nat) :
    Except String MpcSignatureResponse :=
  let digest := E.hashTypedData (snapshotDomain chainId vaultAddress) snapshot
  let recoveredAddress := E.recoverAddress digest signature65
  if toLowerCase recoveredAddress ≠ toLowerCase agentAddress then
    .error ("Signature verification failed! Recovered " ++ recoveredAddress ++
      ", expected " ++ agentAddress)
  else
    .ok { signature := signature65, agentAddress := agentAddress }

/-- The `signBalanceSnapshot` round trip after the remote call
(lines 117-199), as a function of the transaction outcome:
`successValue` is the parsed JSON byte array carried by the
transaction's SuccessValue, `none` when the transaction result carried
no SuccessValue.  Every thrown error is rethrown by the surrounding
catch block, so the caller sees exactly this `Except`. -/
def NearContractService.signBalanceSnapshot (E : EthersPrims)
    (svc : NearContractService) (snapshot : CrossChainBalanceSnapshot)
    (vaultAddress : String) (chainId : Nat)
    (successValue : Option (List Nat)) :
    Except String MpcSignatureResponse :=
  match successValue with
  | none => .error "No SuccessValue in NEAR transaction result"
  | some signatureArray =>
    match decodeSignature signatureArray with
    | .error e => .error e
    | .ok signature65 =>
      verifyAndPackage E svc.agentAddress snapshot vaultAddress chainId signature65

/-! Identity derivation (src/derive-agent-address.ts, and the same
routine duplicated in src/verify-agent-address.ts). -/

/-- External cryptographic primitives composed by the derivation
script: the SHA3-256 digest, the keccak-256 digest, and the three
secp256k1 library calls it makes.  `publicKeyCreate` maps a 32-byte
scalar to the uncompressed point scalar·G; `publicKeyConvert`
decompresses a 33-byte compressed point; `publicKeyCombine` adds two
points, output uncompressed.  These are npm library collaborators, so
the embedding is parametric in them. -/
structure Secp256k1Prims where
  sha3_256 : List Nat → List Nat
  keccak256 : List Nat → List Nat
  publicKeyCreate : List Nat → List Nat
  publicKeyConvert : List Nat → List Nat
  publicKeyCombine : List Nat → List Nat → List Nat

/-- The fixed epsilon-derivation namespace string
(derive-agent-address.ts line 28). -/
def EPSILON_DERIVATION_PREFIX_STR : String :=
  "near-mpc-recovery v0.1.0 epsilon derivation:"

/-- Last `n` entries of a list, as `Buffer.prototype.slice(-n)`. -/
def takeLast (n : Nat) (l : List Nat) : List Nat :=
  l.drop (l.length - n)

/-- The address-derivation pipeline of derive-agent-address.ts lines
27-50, from the decoded root public key bytes: hash the derivation
string, normalise the root key to uncompressed form (prepend 0x04 to a
64-byte raw point, decompress a 33-byte point), add epsilon·G, strip
the marker byte, keccak, keep the last 20 bytes. -/
def deriveAgentAddress (C : Secp256k1Prims) (rootPkBytes : List Nat)
    (contractId path : String) : List Nat :=
  let derivationString := EPSILON_DERIVATION_PREFIX_STR ++ contractId ++ "," ++ path
  let epsilonHash := C.sha3_256 (asciiBytes derivationString)
  let rootPk :=
    if rootPkBytes.length = 64 then 4 :: rootPkBytes
    else if rootPkBytes.length = 33 then C.publicKeyConvert rootPkBytes
    else rootPkBytes
  let epsilonPoint := C.publicKeyCreate epsilonHash
  let derivedPkBytes := C.publicKeyCombine rootPk epsilonPoint
  let pkForHashing := derivedPkBytes.drop 1
  let addressHash := C.keccak256 pkForHashing
  takeLast 20 addressHash

/-- Modelled from the spec's words, for comparison with
`deriveAgentAddress`: the derived point is
rootPublicKey + Hash256(prefix ‖ contractId ‖ "," ‖ path)·G with the
root key normalised to uncompressed form (0x04 prepended to a 64-byte
raw point, a 33-byte compressed point decompressed), and the account
address is the last 20 bytes of the keccak hash of the uncompressed
derived point with its leading marker byte removed. -/
def specAgentAddress (C : Secp256k1Prims) (rootPkBytes : List Nat)
    (contractId path : String) : List Nat :=
  let epsilon :=
    C.sha3_256 (asciiBytes (EPSILON_DERIVATION_PREFIX_STR ++ contractId ++ "," ++ path))
  let rootPoint :=
    if rootPkBytes.length = 64 then 4 :: rootPkBytes
    else if rootPkBytes.length = 33 then C.publicKeyConvert rootPkBytes
    else rootPkBytes
  let derivedPoint := C.publicKeyCombine rootPoint (C.publicKeyCreate epsilon)
  let withoutMarker := derivedPoint.drop 1
  takeLast 20 (C.keccak256 withoutMarker)

/-! Balance aggregation (src/src/services/balanceFetcher.ts). -/

/-- One entry of `SUPPORTED_CHAINS` (src/src/config/chains.ts). -/
structure ChainConfig where
  chainId : Nat
  name : String
  rpcUrl : String
  aavePoolAddress : String
  usdcAddress : String
  vaultAddress : Option String
deriving DecidableEq, Repr

/-- Per-chain agent balance record (`ChainBalance` in src/src/types);
the decimal-string balance is modelled by its numeric value. -/
structure ChainBalance where
  chainId : Nat
  chainName : String
  aTokenBalance : Nat
  aTokenAddress : String
  blockNumber : Nat
  timestamp : Nat
deriving DecidableEq, Repr

/-- Per-vault balance record (`VaultBalance` in src/src/types). -/
structure VaultBalance where
  chainId : Nat
  chainName : String
  vaultAddress : String
  usdcBalance : Nat
  aTokenBalance : Nat
  blockNumber : Nat
  timestamp : Nat
deriving DecidableEq, Repr

/-- Error object thrown by an ethers contract call, as far as the code
inspects it: its `code` tag and its message. -/
structure JsError where
  code : String
  message : String
deriving DecidableEq, Repr

/-- The hardcoded fallback table `KNOWN_ATOKEN_ADDRESSES`
(balanceFetcher.ts lines 10-28), keyed by chain id and lower-case
asset address. -/
def KNOWN_ATOKEN_ADDRESSES (chainId : Nat) (asset : String) : Option String :=
  if chainId = 11155111 then
    if asset = "0xaa8e23fb1079ea71e0a56f48a2aa51851d8433d0" then
      some "0x8A458A9dc9048e005d22849F470891b840296619"
    else none
  else if chainId = 84532 then
    if asset = "0x036cbd53842c5426634e7929541ec2318f3dcf7e" then
      some "0x4e65fE4DbA92790696d040ac24Aa414708F5c0AB"
    else if asset = "0x75faf114eafb1bdbe2f0316df893fd58ce46aa4d" then
      some "0x4e65fE4DbA92790696d040ac24Aa414708F5c0AB"
    else none
  else if chainId = 421614 then
    if asset = "0x75faf114eafb1bdbe2f0316df893fd58ce46aa4d" then
      some "0x460b97BD498E1157530AEb3086301d5225b91216"
    else none
  else if chainId = 11155420 then
    if asset = "0x5fd84259d66cd46123540766be93dfe6d43130d7" then
      some "0x16dA4541aD1807f4443d92D26044C1147406EB80"
    else none
  else none

/-- The module-level aToken-address cache, a map from the string key
built by `cacheKey` to the resolved address. -/
abbrev ATokenCache : Type := List (String × String)

/-- The cache key built at balanceFetcher.ts line 37. -/
def cacheKey (chainId : Nat) (usdcAddress : String) : String :=
  toString chainId ++ "-" ++ usdcAddress

/-- Lookup in the aToken-address cache. -/
def cacheFind : ATokenCache → String → Option String
  | [], _ => none
  | (k, v) :: rest, key => if k = key then some v else cacheFind rest key

/-- The `getATokenAddress` resolver (balanceFetcher.ts lines 33-78).
`poolLookup` is the outcome of the live `getReserveData` RPC call
against the chain's AAVE pool (a network collaborator, hence a
parameter).  Returns the resolved address together with the updated
cache. -/
def getATokenAddress (poolLookup : Except String String)
    (cache : ATokenCache) (chainConfig : ChainConfig) (usdcAddress : String) :
    Except String (String × ATokenCache) :=
  let key := cacheKey chainConfig.chainId usdcAddress
  match cacheFind cache key with
  | some aTokenAddress => .ok (aTokenAddress, cache)
  | none =>
    match poolLookup with
    | .ok aTokenAddress => .ok (aTokenAddress, (key, aTokenAddress) :: cache)
    | .error e =>
      match KNOWN_ATOKEN_ADDRESSES chainConfig.chainId (toLowerCase usdcAddress) with
      | some aTokenAddress => .ok (aTokenAddress, (key, aTokenAddress) :: cache)
      | none =>
        .error ("Failed to get aToken address on " ++ chainConfig.name ++ ": " ++ e)

/-- The try/catch wrapped around every `balanceOf` call (e.g.
balanceFetcher.ts lines 97-108): a failure whose `code` is BAD_DATA is
turned into a zero balance, any other failure is rethrown. -/
def handleBalanceOfResult : Except JsError Nat → Except JsError Nat
  | .ok balance => .ok balance
  | .error e => if e.code = "BAD_DATA" then .ok 0 else .error e

/-- The `fetchATokenBalance` routine (balanceFetcher.ts lines 83-130)
for one chain.  `poolLookup`, `balanceOfResult` and
`blockNumberResult` are the outcomes of its three RPC calls, `now` the
wall-clock second.  Any error is wrapped with the chain name by the
outer catch. -/
def fetchATokenBalance (poolLookup : Except String String)
    (cache : ATokenCache) (balanceOfResult : Except JsError Nat)
    (blockNumberResult : Except JsError Nat) (now : Nat)
    (chainConfig : ChainConfig) : Except String (ChainBalance × ATokenCache) :=
  match getATokenAddress poolLookup cache chainConfig chainConfig.usdcAddress with
  | .error e =>
    .error ("Failed to fetch aToken balance on " ++ chainConfig.name ++ ": " ++ e)
  | .ok (aTokenAddress, cache') =>
    match handleBalanceOfResult balanceOfResult with
    | .error e =>
      .error ("Failed to fetch aToken balance on " ++ chainConfig.name ++ ": " ++
        e.message)
    | .ok balance =>
      match blockNumberResult with
      | .error e =>
        .error ("Failed to fetch aToken balance on " ++ chainConfig.name ++ ": " ++
          e.message)
      | .ok blockNumber =>
        .ok ({ chainId := chainConfig.chainId
               chainName := chainConfig.name
               aTokenBalance := balance
               aTokenAddress := aTokenAddress
               blockNumber := blockNumber
               timestamp := now }, cache')

/-- The `fetchVaultUSDCBalance` routine (balanceFetcher.ts lines
135-165): the vault's idle USDC balance, with the BAD_DATA-as-zero
policy and the chain name wrapped into any other error. -/
def fetchVaultUSDCBalance (balanceOfResult : Except JsError Nat)
    (chainConfig : ChainConfig) : Except String Nat :=
  match handleBalanceOfResult balanceOfResult with
  | .ok balance => .ok balance
  | .error e =>
    .error ("Failed to fetch USDC balance on " ++ chainConfig.name ++ ": " ++ e.message)

/-- The `fetchVaultATokenBalance` routine (balanceFetcher.ts lines
170-205): the vault's invested aToken balance; resolves the aToken
address first, then reads the balance with the BAD_DATA-as-zero
policy. -/
def fetchVaultATokenBalance (poolLookup : Except String String)
    (cache : ATokenCache) (balanceOfResult : Except JsError Nat)
    (chainConfig : ChainConfig) : Except String (Nat × ATokenCache) :=
  match getATokenAddress poolLookup cache chainConfig chainConfig.usdcAddress with
  | .error e =>
    .error ("Failed to fetch vault aToken balance on " ++ chainConfig.name ++ ": " ++ e)
  | .ok (_, cache') =>
    match handleBalanceOfResult balanceOfResult with
    | .ok balance => .ok (balance, cache')
    | .error e =>
      .error ("Failed to fetch vault aToken balance on " ++ chainConfig.name ++ ": " ++
        e.message)

/-- The `fetchVaultBalance` routine (balanceFetcher.ts lines 211-265):
try the ERC4626 `totalAssets()` accessor; on success report the whole
value as invested (`aTokenBalance`) with a zero idle (`usdcBalance`);
only if that call fails, fall back to the pair of separate balance
reads, whose outcomes are the `usdcFallback` and `aTokenFallback`
parameters. -/
def fetchVaultBalance (totalAssetsResult : Except JsError Nat)
    (usdcFallback : Except String Nat) (aTokenFallback : Except String Nat)
    (blockNumber : Nat) (now : Nat)
    (chainConfig : ChainConfig) (vaultAddress : String) :
    Except String VaultBalance :=
  match totalAssetsResult with
  | .ok totalAssets =>
    .ok { chainId := chainConfig.chainId
          chainName := chainConfig.name
          vaultAddress := vaultAddress
          usdcBalance := 0
          aTokenBalance := totalAssets
          blockNumber := blockNumber
          timestamp := now }
  | .error _ =>
    match usdcFallback, aTokenFallback with
    | .ok usdcBalance, .ok aTokenBalance =>
      .ok { chainId := chainConfig.chainId
            chainName := chainConfig.name
            vaultAddress := vaultAddress
            usdcBalance := usdcBalance
            aTokenBalance := aTokenBalance
            blockNumber := blockNumber
            timestamp := now }
    | .error e, _ =>
      .error ("Failed to fetch vault balance on " ++ chainConfig.name ++ ": " ++ e)
    | _, .error e =>
      .error ("Failed to fetch vault balance on " ++ chainConfig.name ++ ": " ++ e)

/-- The `fetchChainBalances` fan-out (balanceFetcher.ts lines 270-290):
one query per configured chain, `Promise.all` semantics — the full
list when every branch fulfils, an error as soon as any branch
rejects.  `fetchOne` is the per-chain query
(`fetchATokenBalance chain agentAddress` in the source). -/
def fetchChainBalances (fetchOne : ChainConfig → Except String ChainBalance) :
    List ChainConfig → Except String (List ChainBalance)
  | [] => .ok []
  | chain :: rest =>
    match fetchOne chain with
    | .error e => .error e
    | .ok balance =>
      match fetchChainBalances fetchOne rest with
      | .error e => .error e
      | .ok balances => .ok (balance :: balances)

/-- The `fetchVaultBalances` fan-out (balanceFetcher.ts lines 295-319):
one query per configured vault, resolving the vault's chain first
(`Chain not found` is an error), with `Promise.all` semantics. -/
def fetchVaultBalances (fetchOne : ChainConfig → String → Except String VaultBalance)
    (getChainById : Nat → Option ChainConfig) :
    List (Nat × String) → Except String (List VaultBalance)
  | [] => .ok []
  | (chainId, vaultAddress) :: rest =>
    match getChainById chainId with
    | none => .error ("Chain " ++ toString chainId ++ " not found")
    | some chain =>
      match fetchOne chain vaultAddress with
      | .error e => .error e
      | .ok balance =>
        match fetchVaultBalances fetchOne getChainById rest with
        | .error e => .error e
        | .ok balances => .ok (balance :: balances)

/-- Result of `aggregateBalances` (`AggregatedBalances` minus the agent
address); decimal-string totals modelled by their numeric values. -/
structure AggregatedBalances where
  totalATokens : Nat
  totalUSDC : Nat
  totalValue : Nat
  chainBalances : List ChainBalance
  vaultBalances : List VaultBalance
  timestamp : Nat
deriving DecidableEq, Repr

/-- The `aggregateBalances` reduction (balanceFetcher.ts lines
324-358): BigInt folds over the vault balances — arbitrary-precision,
modelled by `Nat` — and the grand total. -/
def aggregateBalances (chainBalances : List ChainBalance)
    (vaultBalances : List VaultBalance) (now : Nat) : AggregatedBalances :=
  let totalVaultATokens :=
    vaultBalances.foldl (fun sum vault => sum + vault.aTokenBalance) 0
  let totalVaultUSDC :=
    vaultBalances.foldl (fun sum vault => sum + vault.usdcBalance) 0
  let totalATokens := totalVaultATokens
  let totalValue := totalATokens + totalVaultUSDC
  { totalATokens := totalATokens
    totalUSDC := totalVaultUSDC
    totalValue := totalValue
    chainBalances := chainBalances
    vaultBalances := vaultBalances
    timestamp := now }

/-! Concrete fixtures used to evaluate the theorems on closed inputs. -/

/-- A concrete environment with all required variables set. -/
def envW : EnvConfig :=
  { NEAR_ACCOUNT_ID := some "oracle.testnet"
    NEAR_PRIVATE_KEY := some "ed25519:testkey"
    NEAR_CONTRACT_ID := some "rebalancer-abcdefghij-57.testnet"
    NEAR_RPC_URL := none }

/-- The service state the constructor produces from `envW`. -/
def svcW : NearContractService :=
  { nearContractId := "rebalancer-abcdefghij-57.testnet"
    nearAccountId := "oracle.testnet"
    agentAddress := AGENT_ADDRESS
    isInitialized := false }

/-- Concrete ethers primitives whose recovery returns an address other
than the agent address. -/
def ethersW : EthersPrims :=
  { hashTypedData := fun _ _ => "0x00digest"
    recoverAddress := fun _ _ => "0x1111111111111111111111111111111111111111" }

/-- A concrete snapshot. -/
def snapW : CrossChainBalanceSnapshot :=
  { balance := 1000000, nonce := 7, deadline := 1760000000
    assets := "500000", receiver := "0x2222222222222222222222222222222222222222" }

/-- A concrete chain configuration (the Base Sepolia entry of
`SUPPORTED_CHAINS`). -/
def chainW : ChainConfig :=
  { chainId := 84532
    name := "Base Sepolia"
    rpcUrl := "https://sepolia.base.org"
    aavePoolAddress := "0x6a9d64f93db660eacb2b6e9424792c630cda87d8"
    usdcAddress := "0x036CbD53842c5426634e7929541eC2318f3dCF7e"
    vaultAddress := some "0x773035EABdA16B5416B26E12156483C6B6F56451" }

/-! Helper lemmas. -/

/-- A list of octets is unchanged by `Buffer.from` wrapping. -/
theorem bufferFrom_eq_self (l : List Nat) (h : ∀ b ∈ l, b < 256) :
    bufferFrom l = l := by
  induction l with
  | nil => rfl
  | cons b rest ih =>
    have hb : b % 256 = b := Nat.mod_eq_of_lt (h b (List.mem_cons_self b rest))
    have hr : bufferFrom rest = rest :=
      ih (fun x hx => h x (List.mem_cons_of_mem b hx))
    simp only [bufferFrom, List.map_cons, hb]
    simpa [bufferFrom] using hr

/-- A left fold accumulating `g` equals the accumulator plus the sum of
the mapped list. -/
theorem foldl_add_sum {α : Type} (g : α → Nat) (l : List α) (a : Nat) :
    l.foldl (fun sum x => sum + g x) a = a + (l.map g).sum := by
  induction l generalizing a with
  | nil => simp
  | cons x rest ih =>
    simp only [List.foldl_cons, List.map_cons, List.sum_cons, ih]
    omega

/-- jsParseInt is the identity on the safe-integer range. -/
theorem jsParseInt_exact (n : Nat) (h : n ≤ 2 ^ 53) : jsParseInt n = n := by
  unfold jsParseInt
  rw [if_pos h]

/-- Unfolding of `verifyAndPackage` with its local bindings inlined. -/
theorem verifyAndPackage_def (E : EthersPrims) (agentAddress : String)
    (snapshot : CrossChainBalanceSnapshot) (vaultAddress : String) (chainId : Nat)
    (signature65 : List Nat) :
    verifyAndPackage E agentAddress snapshot vaultAddress chainId signature65 =
      if toLowerCase (E.recoverAddress
            (E.hashTypedData (snapshotDomain chainId vaultAddress) snapshot)
            signature65) ≠ toLowerCase agentAddress then
        .error ("Signature verification failed! Recovered " ++
          E.recoverAddress (E.hashTypedData (snapshotDomain chainId vaultAddress) snapshot)
            signature65 ++ ", expected " ++ agentAddress)
      else
        .ok { signature := signature65, agentAddress := agentAddress } := rfl

/-! Claim theorems. -/

/-- C4: for every root public key (64-byte raw form gets 0x04
prepended; 33-byte compressed form is decompressed) and every
contractId and path, the derived agent address equals the last 20
bytes of keccak256 of the uncompressed point
(rootPublicKey + Hash256(prefix ‖ contractId ‖ "," ‖ path)·G) with the
leading 0x04 marker byte removed, where the prefix is the fixed string
"near-mpc-recovery v0.1.0 epsilon derivation:" — i.e. the code's
derivation pipeline coincides with the spec's formula for every choice
of the underlying curve/hash primitives. -/
theorem deriveAgentAddress_eq_spec (C : Secp256k1Prims) (rootPkBytes : List Nat)
    (contractId path : String) :
    deriveAgentAddress C rootPkBytes contractId path =
      specAgentAddress C rootPkBytes contractId path := rfl

/-- C7: aggregateBalances returns totalATokens equal to the exact
arbitrary-precision sum of the vaults' invested (aToken) balances,
totalUSDC equal to the exact sum of the vaults' idle (USDC) balances,
and totalValue = totalATokens + totalUSDC, over unbounded `Nat`
arithmetic (no fixed-width overflow). -/
theorem aggregateBalances_exact_sums (chainBalances : List ChainBalance)
    (vaultBalances : List VaultBalance) (now : Nat) :
    (aggregateBalances chainBalances vaultBalances now).totalATokens =
        (vaultBalances.map VaultBalance.aTokenBalance).sum
    ∧ (aggregateBalances chainBalances vaultBalances now).totalUSDC =
        (vaultBalances.map VaultBalance.usdcBalance).sum
    ∧ (aggregateBalances chainBalances vaultBalances now).totalValue =
        (aggregateBalances chainBalances vaultBalances now).totalATokens +
          (aggregateBalances chainBalances vaultBalances now).totalUSDC := by
  refine ⟨?_, ?_, rfl⟩
  · simpa [aggregateBalances] using
      foldl_add_sum VaultBalance.aTokenBalance vaultBalances 0
  · simpa [aggregateBalances] using
      foldl_add_sum VaultBalance.usdcBalance vaultBalances 0

/-- C2: NearContractService.getAgentAddress always returns the fixed
literal string "0x20f2747bbc52453ac0774b5b2fe0e28dc6637f30" — for
every environment configuration accepted by the constructor and for
the state after `initialize`, no runtime identity derivation is
performed, and the signature verification of `signBalanceSnapshot`
compares the recovered signer against exactly this constant. -/
theorem getAgentAddress_is_constant (env : EnvConfig) (svc : NearContractService)
    (h : NearContractService.construct env = .ok svc) :
    svc.getAgentAddress = "0x20f2747bbc52453ac0774b5b2fe0e28dc6637f30"
    ∧ svc.initService.getAgentAddress = "0x20f2747bbc52453ac0774b5b2fe0e28dc6637f30"
    ∧ ∀ (E : EthersPrims) (snapshot : CrossChainBalanceSnapshot)
        (vaultAddress : String) (chainId : Nat) (signature65 : List Nat),
        verifyAndPackage E svc.agentAddress snapshot vaultAddress chainId signature65 =
          verifyAndPackage E AGENT_ADDRESS snapshot vaultAddress chainId signature65 := by
  have haddr : svc.agentAddress = AGENT_ADDRESS := by
    obtain ⟨acc, key, cid, rpc⟩ := env
    cases acc <;> cases key <;> cases cid <;>
      (simp only [NearContractService.construct] at h; cases h; try rfl)
  refine ⟨?_, ?_, ?_⟩
  · rw [NearContractService.getAgentAddress, haddr]; rfl
  · rw [NearContractService.getAgentAddress, NearContractService.initService, haddr]; rfl
  · intro E snapshot vaultAddress chainId signature65
    rw [haddr]

/-- C2 witness: the constructor applied to a fully populated
environment yields a state whose getAgentAddress is the literal. -/
theorem getAgentAddress_is_constant_witness :
    svcW.getAgentAddress = "0x20f2747bbc52453ac0774b5b2fe0e28dc6637f30" :=
  (getAgentAddress_is_constant envW svcW rfl).1

/-- C5 counterexample: a snapshot balance of 2^53 + 1 — well inside
the u128 range the claim quantifies over — is not preserved by the
argument construction, because JavaScript parseInt rounds it to the
nearest double, 2^53. -/
theorem buildSignArgs_large_balance_lost :
    (buildSignArgs
        { balance := 9007199254740993, nonce := 0, deadline := 0
          assets := "9007199254740993"
          receiver := "0x2222222222222222222222222222222222222222" }
        "0x773035EABdA16B5416B26E12156483C6B6F56451" 84532).args.balance
      ≠ 9007199254740993 := by decide

/-- C5 amended: the remote-call argument object carries balance,
chain_id, nonce, deadline and callback_gas_tgas as numeric values and
passes assets and receiver through as strings, and balance, nonce and
deadline are numerically equal to the snapshot's decimal-string values
whenever those values are at most 2^53 (the double-precision
safe-integer bound); beyond that bound parseInt rounds them to the
nearest representable double. -/
theorem buildSignArgs_spec (snapshot : CrossChainBalanceSnapshot)
    (vaultAddress : String) (chainId : Nat)
    (hb : snapshot.balance ≤ 2 ^ 53) (hn : snapshot.nonce ≤ 2 ^ 53)
    (hd : snapshot.deadline ≤ 2 ^ 53) :
    buildSignArgs snapshot vaultAddress chainId =
      { args := { balance := snapshot.balance
                  chain_id := chainId
                  verifying_contract := vaultAddress
                  nonce := snapshot.nonce
                  deadline := snapshot.deadline
                  assets := snapshot.assets
                  receiver := snapshot.receiver }
        callback_gas_tgas := 50 } := by
  rw [buildSignArgs, jsParseInt_exact _ hb, jsParseInt_exact _ hn, jsParseInt_exact _ hd]

/-- C5 witness: a concrete safe-range snapshot is serialized exactly. -/
theorem buildSignArgs_spec_witness :
    buildSignArgs snapW "0x773035EABdA16B5416B26E12156483C6B6F56451" 84532 =
      { args := { balance := snapW.balance
                  chain_id := 84532
                  verifying_contract := "0x773035EABdA16B5416B26E12156483C6B6F56451"
                  nonce := snapW.nonce
                  deadline := snapW.deadline
                  assets := snapW.assets
                  receiver := snapW.receiver }
        callback_gas_tgas := 50 } :=
  buildSignArgs_spec snapW "0x773035EABdA16B5416B26E12156483C6B6F56451" 84532
    (by decide) (by decide) (by decide)

/-- C3 counterexample: a 65-byte response whose last byte is 255 is
decoded successfully, but the last byte of the produced signature is
(255 + 27) mod 256 = 26, not 255 + 27 = 282: the `Uint8Array`
constructor truncates the converted recovery byte to an octet. -/
theorem decodeSignature_v_wraps :
    decodeSignature (List.replicate 64 0 ++ [255]) =
        .ok (List.replicate 64 0 ++ [26])
    ∧ (List.replicate 64 0 ++ [26]).getD 64 0 ≠ 255 + 27 := by decide

/-- C3 amended: any decoded response whose length is not exactly 65 is
rejected with an error before any recovery attempt (signBalanceSnapshot
returns that very error for every choice of the ethers primitives, so
no recovery is consulted); a 65-byte response is split as
r(32) ‖ s(32) ‖ recoveryId(1) and the final signature is
r ‖ s ‖ ((recoveryId + 27) mod 256), whose last byte equals
recoveryId + 27 exactly whenever recoveryId + 27 < 256 — in particular
for the documented recovery ids 0 and 1. -/
theorem decodeSignature_spec (signatureArray : List Nat)
    (hbytes : ∀ b ∈ signatureArray, b < 256) :
    (signatureArray.length ≠ 65 →
      decodeSignature signatureArray =
          .error ("Invalid signature length: " ++ toString signatureArray.length ++
            ", expected 65")
        ∧ ∀ (E : EthersPrims) (svc : NearContractService)
            (snapshot : CrossChainBalanceSnapshot) (vaultAddress : String)
            (chainId : Nat),
            svc.signBalanceSnapshot E snapshot vaultAddress chainId
                (some signatureArray) =
              .error ("Invalid signature length: " ++ toString signatureArray.length ++
                ", expected 65"))
    ∧ (signatureArray.length = 65 →
      decodeSignature signatureArray =
          .ok (signatureArray.take 32 ++ (signatureArray.drop 32).take 32 ++
            [(signatureArray.getD 64 0 + 27) % 256])
        ∧ (signatureArray.getD 64 0 + 27 < 256 →
            decodeSignature signatureArray =
              .ok (signatureArray.take 32 ++ (signatureArray.drop 32).take 32 ++
                [signatureArray.getD 64 0 + 27]))) := by
  have hbuf : bufferFrom signatureArray = signatureArray :=
    bufferFrom_eq_self signatureArray hbytes
  constructor
  · intro hlen
    have herr : decodeSignature signatureArray =
        .error ("Invalid signature length: " ++ toString signatureArray.length ++
          ", expected 65") := by
      rw [decodeSignature, hbuf, if_pos hlen]
    refine ⟨herr, ?_⟩
    intro E svc snapshot vaultAddress chainId
    rw [NearContractService.signBalanceSnapshot, herr]
  · intro hlen
    have hok : decodeSignature signatureArray =
        .ok (signatureArray.take 32 ++ (signatureArray.drop 32).take 32 ++
          [(signatureArray.getD 64 0 + 27) % 256]) := by
      rw [decodeSignature, hbuf, if_neg (fun hne => hne hlen)]
      rfl
    refine ⟨hok, ?_⟩
    intro hsmall
    rw [hok, Nat.mod_eq_of_lt hsmall]

/-- C3 witness: the amended statement evaluated on a concrete 65-byte
response with recovery id 1. -/
theorem decodeSignature_spec_witness :
    decodeSignature (List.replicate 64 2 ++ [1]) =
      .ok (List.replicate 32 2 ++ (List.replicate 32 2 ++ [28])) := by
  have h := ((decodeSignature_spec (List.replicate 64 2 ++ [1]) (by decide)).2
    (by decide)).2 (by decide)
  exact h.trans (by decide)

/-- C1: if the signer address recovered from the locally recomputed
structured-data digest and the decoded 65-byte signature does not
case-insensitively equal the expected agent address, then
signBalanceSnapshot fails with an error; and whenever it does return a
record, the recovered signer of that record's signature matches the
agent address and the record carries that address — a mismatched
record is never surfaced to a caller. -/
theorem signBalanceSnapshot_mismatch_never_returned (E : EthersPrims)
    (svc : NearContractService) (snapshot : CrossChainBalanceSnapshot)
    (vaultAddress : String) (chainId : Nat) :
    (∀ signatureArray signature65,
      decodeSignature signatureArray = .ok signature65 →
      toLowerCase (E.recoverAddress
          (E.hashTypedData (snapshotDomain chainId vaultAddress) snapshot)
          signature65) ≠ toLowerCase svc.agentAddress →
      ∃ e, svc.signBalanceSnapshot E snapshot vaultAddress chainId
          (some signatureArray) = .error e)
    ∧ ∀ successValue response,
      svc.signBalanceSnapshot E snapshot vaultAddress chainId successValue =
          .ok response →
      toLowerCase (E.recoverAddress
          (E.hashTypedData (snapshotDomain chainId vaultAddress) snapshot)
          response.signature) = toLowerCase svc.agentAddress
        ∧ response.agentAddress = svc.agentAddress := by
  constructor
  · intro signatureArray signature65 hdec hmis
    refine ⟨"Signature verification failed! Recovered " ++
        E.recoverAddress (E.hashTypedData (snapshotDomain chainId vaultAddress) snapshot)
          signature65 ++ ", expected " ++ svc.agentAddress, ?_⟩
    simp only [NearContractService.signBalanceSnapshot, hdec, verifyAndPackage_def]
    rw [if_pos hmis]
  · intro successValue response hok
    cases successValue with
    | none =>
      simp only [NearContractService.signBalanceSnapshot] at hok
      cases hok
    | some signatureArray =>
      simp only [NearContractService.signBalanceSnapshot] at hok
      cases hdec : decodeSignature signatureArray with
      | error e => rw [hdec] at hok; cases hok
      | ok signature65 =>
        simp only [hdec, verifyAndPackage_def] at hok
        by_cases hc : toLowerCase (E.recoverAddress
            (E.hashTypedData (snapshotDomain chainId vaultAddress) snapshot)
            signature65) ≠ toLowerCase svc.agentAddress
        · rw [if_pos hc] at hok; cases hok
        · rw [if_neg hc] at hok
          injection hok with hok
          rw [← hok]
          exact ⟨not_ne_iff.mp hc, rfl⟩

/-- C1 witness: with concrete primitives recovering an address
different from the agent address, the pipeline errors on a concrete
65-byte response. -/
theorem signBalanceSnapshot_mismatch_witness :
    ∃ e, svcW.signBalanceSnapshot ethersW snapW
        "0x773035EABdA16B5416B26E12156483C6B6F56451" 84532
        (some (List.replicate 65 0)) = .error e :=
  (signBalanceSnapshot_mismatch_never_returned ethersW svcW snapW
      "0x773035EABdA16B5416B26E12156483C6B6F56451" 84532).1
    (List.replicate 65 0) (List.replicate 64 0 ++ [27]) (by decide) (by decide)

/-- An error value is not ok. -/
theorem isOk_error {ε α : Type} (e : ε) :
    (Except.error e : Except ε α).isOk = false := rfl

/-- An ok value is ok. -/
theorem isOk_ok {ε α : Type} (a : α) :
    (Except.ok a : Except ε α).isOk = true := rfl

/-- A failing branch makes the whole chain fan-out fail. -/
theorem fetchChainBalances_error_of_mem
    (fetchOne : ChainConfig → Except String ChainBalance)
    (chains : List ChainConfig) (c : ChainConfig) (hc : c ∈ chains)
    (hf : (fetchOne c).isOk = false) :
    (fetchChainBalances fetchOne chains).isOk = false := by
  induction chains with
  | nil => cases hc
  | cons d rest ih =>
    rcases List.mem_cons.mp hc with hcd | hmem
    · subst hcd
      cases hfc : fetchOne c with
      | error e => simp [fetchChainBalances, hfc, isOk_error]
      | ok b => rw [hfc] at hf; exact absurd hf (by simp [isOk_ok])
    · cases hfd : fetchOne d with
      | error e => simp [fetchChainBalances, hfd, isOk_error]
      | ok b =>
        have hrest := ih hmem
        cases hr : fetchChainBalances fetchOne rest with
        | error e => simp [fetchChainBalances, hfd, hr, isOk_error]
        | ok bs => rw [hr] at hrest; exact absurd hrest (by simp [isOk_ok])

/-- A fulfilled chain fan-out contains one result per configured chain
and implies that every branch fulfilled. -/
theorem fetchChainBalances_ok
    (fetchOne : ChainConfig → Except String ChainBalance)
    (chains : List ChainConfig) (balances : List ChainBalance)
    (h : fetchChainBalances fetchOne chains = .ok balances) :
    balances.length = chains.length ∧ ∀ c ∈ chains, (fetchOne c).isOk = true := by
  induction chains generalizing balances with
  | nil =>
    rw [fetchChainBalances] at h
    injection h with h
    subst h
    exact ⟨rfl, fun c hc => absurd hc (List.not_mem_nil c)⟩
  | cons d rest ih =>
    rw [fetchChainBalances] at h
    cases hfd : fetchOne d with
    | error e => rw [hfd] at h; cases h
    | ok b =>
      rw [hfd] at h
      cases hr : fetchChainBalances fetchOne rest with
      | error e => rw [hr] at h; cases h
      | ok bs =>
        rw [hr] at h
        injection h with h
        subst h
        obtain ⟨hlen, hall⟩ := ih bs hr
        refine ⟨by simp [hlen], ?_⟩
        intro c hc
        rcases List.mem_cons.mp hc with hcd | hmem
        · subst hcd; rw [hfd]; rfl
        · exact hall c hmem

/-- A failing branch makes the whole vault fan-out fail. -/
theorem fetchVaultBalances_error_of_mem
    (fetchOne : ChainConfig → String → Except String VaultBalance)
    (getChainById : Nat → Option ChainConfig)
    (vaults : List (Nat × String)) (v : Nat × String) (hv : v ∈ vaults)
    (chain : ChainConfig) (hchain : getChainById v.1 = some chain)
    (hf : (fetchOne chain v.2).isOk = false) :
    (fetchVaultBalances fetchOne getChainById vaults).isOk = false := by
  induction vaults with
  | nil => cases hv
  | cons w rest ih =>
    obtain ⟨wChainId, wVault⟩ := w
    rcases List.mem_cons.mp hv with hvw | hmem
    · subst hvw
      simp only at hchain hf
      cases hfc : fetchOne chain wVault with
      | error e => simp [fetchVaultBalances, hchain, hfc, isOk_error]
      | ok b => rw [hfc] at hf; exact absurd hf (by simp [isOk_ok])
    · cases hg : getChainById wChainId with
      | none => simp [fetchVaultBalances, hg, isOk_error]
      | some wChain =>
        cases hfw : fetchOne wChain wVault with
        | error e => simp [fetchVaultBalances, hg, hfw, isOk_error]
        | ok b =>
          have hrest := ih hmem
          cases hr : fetchVaultBalances fetchOne getChainById rest with
          | error e => simp [fetchVaultBalances, hg, hfw, hr, isOk_error]
          | ok bs => rw [hr] at hrest; exact absurd hrest (by simp [isOk_ok])

/-- A fulfilled vault fan-out contains one result per configured vault
and implies that every vault's chain resolved and every branch
fulfilled. -/
theorem fetchVaultBalances_ok
    (fetchOne : ChainConfig → String → Except String VaultBalance)
    (getChainById : Nat → Option ChainConfig)
    (vaults : List (Nat × String)) (balances : List VaultBalance)
    (h : fetchVaultBalances fetchOne getChainById vaults = .ok balances) :
    balances.length = vaults.length ∧
      ∀ v ∈ vaults, ∃ chain, getChainById v.1 = some chain ∧
        (fetchOne chain v.2).isOk = true := by
  induction vaults generalizing balances with
  | nil =>
    rw [fetchVaultBalances] at h
    injection h with h
    subst h
    exact ⟨rfl, fun v hv => absurd hv (List.not_mem_nil v)⟩
  | cons w rest ih =>
    obtain ⟨wChainId, wVault⟩ := w
    rw [fetchVaultBalances] at h
    cases hg : getChainById wChainId with
    | none => rw [hg] at h; cases h
    | some wChain =>
      simp only [hg] at h
      cases hfw : fetchOne wChain wVault with
      | error e => rw [hfw] at h; cases h
      | ok b =>
        rw [hfw] at h
        cases hr : fetchVaultBalances fetchOne getChainById rest with
        | error e => rw [hr] at h; cases h
        | ok bs =>
          rw [hr] at h
          injection h with h
          subst h
          obtain ⟨hlen, hall⟩ := ih bs hr
          refine ⟨by simp [hlen], ?_⟩
          intro v hv
          rcases List.mem_cons.mp hv with hvw | hmem
          · rw [hvw]
            exact ⟨wChain, hg, by rw [hfw]; rfl⟩
          · exact hall v hmem

/-- C6: for every set of configured chains and vaults, if any one of
the per-chain or per-vault balance queries fails, the enclosing fetch
(fetchChainBalances or fetchVaultBalances) fails as a whole; and a
returned list always has exactly one entry per configured chain/vault
with every underlying query fulfilled — no partial list built from a
strict subset is ever returned. -/
theorem aggregation_is_atomic
    (fetchOneChain : ChainConfig → Except String ChainBalance)
    (chains : List ChainConfig)
    (fetchOneVault : ChainConfig → String → Except String VaultBalance)
    (getChainById : Nat → Option ChainConfig)
    (vaults : List (Nat × String)) :
    ((∃ c ∈ chains, (fetchOneChain c).isOk = false) →
      (fetchChainBalances fetchOneChain chains).isOk = false)
    ∧ (∀ balances, fetchChainBalances fetchOneChain chains = .ok balances →
        balances.length = chains.length ∧
          ∀ c ∈ chains, (fetchOneChain c).isOk = true)
    ∧ ((∃ v ∈ vaults, ∃ chain, getChainById v.1 = some chain ∧
          (fetchOneVault chain v.2).isOk = false) →
      (fetchVaultBalances fetchOneVault getChainById vaults).isOk = false)
    ∧ (∀ balances, fetchVaultBalances fetchOneVault getChainById vaults = .ok balances →
        balances.length = vaults.length ∧
          ∀ v ∈ vaults, ∃ chain, getChainById v.1 = some chain ∧
            (fetchOneVault chain v.2).isOk = true) := by
  refine ⟨?_, ?_, ?_, ?_⟩
  · rintro ⟨c, hc, hf⟩
    exact fetchChainBalances_error_of_mem fetchOneChain chains c hc hf
  · intro balances h
    exact fetchChainBalances_ok fetchOneChain chains balances h
  · rintro ⟨v, hv, chain, hchain, hf⟩
    exact fetchVaultBalances_error_of_mem fetchOneVault getChainById vaults v hv
      chain hchain hf
  · intro balances h
    exact fetchVaultBalances_ok fetchOneVault getChainById vaults balances h

/-- C6 witness: with one failing chain among two, the fan-out fails as
a whole. -/
theorem aggregation_is_atomic_witness :
    (fetchChainBalances
        (fun chain => if chain.chainId = 84532 then .error "rpc down" else
          .ok { chainId := chain.chainId, chainName := chain.name,
                aTokenBalance := 5, aTokenAddress := "0xa", blockNumber := 1,
                timestamp := 2 })
        [{ chainW with chainId := 421614 }, chainW]).isOk = false :=
  (aggregation_is_atomic
      (fun chain => if chain.chainId = 84532 then .error "rpc down" else
        .ok { chainId := chain.chainId, chainName := chain.name,
              aTokenBalance := 5, aTokenAddress := "0xa", blockNumber := 1,
              timestamp := 2 })
      [{ chainW with chainId := 421614 }, chainW]
      (fun _ _ => .error "unused") (fun _ => none) []).1
    ⟨chainW, by decide, by decide⟩

/-- C8: a balance query whose contract call fails with empty return
data (the BAD_DATA case) yields a balance of 0 and is not an error —
both for the per-chain agent balance and for the vault USDC balance —
while a failure with any other code propagates as an error that aborts
that one chain's fetch. -/
theorem badData_reads_as_zero (chainConfig : ChainConfig)
    (poolLookup : Except String String) (cache : ATokenCache) (msg : String)
    (e : JsError) (blockNumber now : Nat) (aTokenAddress : String)
    (cache' : ATokenCache) :
    (getATokenAddress poolLookup cache chainConfig chainConfig.usdcAddress =
        .ok (aTokenAddress, cache') →
      fetchATokenBalance poolLookup cache
          (.error { code := "BAD_DATA", message := msg }) (.ok blockNumber) now
          chainConfig =
        .ok ({ chainId := chainConfig.chainId
               chainName := chainConfig.name
               aTokenBalance := 0
               aTokenAddress := aTokenAddress
               blockNumber := blockNumber
               timestamp := now }, cache'))
    ∧ (e.code ≠ "BAD_DATA" →
        (fetchATokenBalance poolLookup cache (.error e) (.ok blockNumber) now
            chainConfig).isOk = false)
    ∧ fetchVaultUSDCBalance (.error { code := "BAD_DATA", message := msg })
        chainConfig = .ok 0
    ∧ (e.code ≠ "BAD_DATA" →
        fetchVaultUSDCBalance (.error e) chainConfig =
          .error ("Failed to fetch USDC balance on " ++ chainConfig.name ++ ": " ++
            e.message)) := by
  refine ⟨?_, ?_, ?_, ?_⟩
  · intro hres
    simp [fetchATokenBalance, hres, handleBalanceOfResult]
  · intro hcode
    cases hres : getATokenAddress poolLookup cache chainConfig
        chainConfig.usdcAddress with
    | error err => simp [fetchATokenBalance, hres, isOk_error]
    | ok pair =>
      obtain ⟨addr, cache2⟩ := pair
      simp [fetchATokenBalance, hres, handleBalanceOfResult, hcode, isOk_error]
  · simp [fetchVaultUSDCBalance, handleBalanceOfResult]
  · intro hcode
    simp [fetchVaultUSDCBalance, handleBalanceOfResult, hcode]

/-- C8 witness: on the concrete chain configuration, a BAD_DATA
failure reads as a zero balance and a network failure reads as an
error. -/
theorem badData_reads_as_zero_witness :
    fetchVaultUSDCBalance
        (.error { code := "BAD_DATA", message := "could not decode result data" })
        chainW = .ok 0 :=
  (badData_reads_as_zero chainW (.error "unused") [] "could not decode result data"
      { code := "NETWORK_ERROR", message := "connection refused" } 1 2 "0xa" []).2.2.1

/-- C9: token-address resolution first attempts the live lending-pool
lookup; on any failure of that lookup it succeeds via the static
per-chain-id per-asset table whenever the pair is present there, and
fails exactly when the pair is absent from the table too; every
successful resolution populates the cache under the (chainId, asset)
key, and a cached entry is returned unchanged on all subsequent calls
for every outcome of the live lookup (no new lookup is consulted). -/
theorem getATokenAddress_resolution_policy (chainConfig : ChainConfig)
    (usdcAddress : String) (cache : ATokenCache)
    (poolLookup : Except String String) (addr : String) (e : String) :
    (cacheFind cache (cacheKey chainConfig.chainId usdcAddress) = some addr →
      getATokenAddress poolLookup cache chainConfig usdcAddress = .ok (addr, cache))
    ∧ (cacheFind cache (cacheKey chainConfig.chainId usdcAddress) = none →
      getATokenAddress (.ok addr) cache chainConfig usdcAddress =
          .ok (addr, (cacheKey chainConfig.chainId usdcAddress, addr) :: cache)
        ∧ cacheFind ((cacheKey chainConfig.chainId usdcAddress, addr) :: cache)
            (cacheKey chainConfig.chainId usdcAddress) = some addr)
    ∧ (cacheFind cache (cacheKey chainConfig.chainId usdcAddress) = none →
      KNOWN_ATOKEN_ADDRESSES chainConfig.chainId (toLowerCase usdcAddress) =
          some addr →
      getATokenAddress (.error e) cache chainConfig usdcAddress =
        .ok (addr, (cacheKey chainConfig.chainId usdcAddress, addr) :: cache))
    ∧ (cacheFind cache (cacheKey chainConfig.chainId usdcAddress) = none →
      KNOWN_ATOKEN_ADDRESSES chainConfig.chainId (toLowerCase usdcAddress) = none →
      getATokenAddress (.error e) cache chainConfig usdcAddress =
        .error ("Failed to get aToken address on " ++ chainConfig.name ++ ": " ++ e)) := by
  refine ⟨?_, ?_, ?_, ?_⟩
  · intro hcached
    simp [getATokenAddress, hcached]
  · intro hmiss
    refine ⟨by simp [getATokenAddress, hmiss], by simp [cacheFind]⟩
  · intro hmiss htable
    simp [getATokenAddress, hmiss, htable]
  · intro hmiss htable
    simp [getATokenAddress, hmiss, htable]

/-- C9 witness: on Base Sepolia with an empty cache and a failing live
lookup, resolution succeeds through the static table and populates the
cache. -/
theorem getATokenAddress_resolution_policy_witness :
    getATokenAddress (.error "pool query failed") [] chainW chainW.usdcAddress =
      .ok ("0x4e65fE4DbA92790696d040ac24Aa414708F5c0AB",
        [(cacheKey 84532 chainW.usdcAddress,
          "0x4e65fE4DbA92790696d040ac24Aa414708F5c0AB")]) :=
  (getATokenAddress_resolution_policy chainW chainW.usdcAddress []
      (.error "unused") "0x4e65fE4DbA92790696d040ac24Aa414708F5c0AB"
      "pool query failed").2.2.1 rfl (by decide)

/-- C10: fetchVaultBalance first consults the vault's totalAssets
accessor — when it succeeds with value t, the result reports the whole
value as invested (aTokenBalance = t) and a zero idle balance, for
every outcome of the two fallback queries (they are not consulted);
only when the accessor fails is the result assembled from the separate
idle-USDC and invested-aToken reads, and a failure of either fallback
read fails the fetch. -/
theorem fetchVaultBalance_prefers_totalAssets (chainConfig : ChainConfig)
    (vaultAddress : String) (totalAssets : Nat) (e : JsError)
    (usdcFallback aTokenFallback : Except String Nat)
    (u a blockNumber now : Nat) (msg : String) :
    (fetchVaultBalance (.ok totalAssets) usdcFallback aTokenFallback blockNumber
        now chainConfig vaultAddress =
      .ok { chainId := chainConfig.chainId
            chainName := chainConfig.name
            vaultAddress := vaultAddress
            usdcBalance := 0
            aTokenBalance := totalAssets
            blockNumber := blockNumber
            timestamp := now })
    ∧ (fetchVaultBalance (.error e) (.ok u) (.ok a) blockNumber now chainConfig
        vaultAddress =
      .ok { chainId := chainConfig.chainId
            chainName := chainConfig.name
            vaultAddress := vaultAddress
            usdcBalance := u
            aTokenBalance := a
            blockNumber := blockNumber
            timestamp := now })
    ∧ ((fetchVaultBalance (.error e) (.error msg) aTokenFallback blockNumber now
        chainConfig vaultAddress).isOk = false)
    ∧ ((fetchVaultBalance (.error e) usdcFallback (.error msg) blockNumber now
        chainConfig vaultAddress).isOk = false) := by
  refine ⟨rfl, rfl, ?_, ?_⟩
  · cases aTokenFallback with
    | error e2 => simp [fetchVaultBalance, isOk_error]
    | ok a2 => simp [fetchVaultBalance, isOk_error]
  · cases usdcFallback with
    | error e2 => simp [fetchVaultBalance, isOk_error]
    | ok u2 => simp [fetchVaultBalance, isOk_error]

/-- C10 witness: with a succeeding totalAssets accessor and failing
fallback reads, the vault balance reports everything as invested. -/
theorem fetchVaultBalance_prefers_totalAssets_witness :
    fetchVaultBalance (.ok 123456789) (.error "usdc read failed")
        (.error "aToken read failed") 42 1760000000 chainW
        "0x773035EABdA16B5416B26E12156483C6B6F56451" =
      .ok { chainId := chainW.chainId
            chainName := chainW.name
            vaultAddress := "0x773035EABdA16B5416B26E12156483C6B6F56451"
            usdcBalance := 0
            aTokenBalance := 123456789
            blockNumber := 42
            timestamp := 1760000000 } :=
  (fetchVaultBalance_prefers_totalAssets chainW
      "0x773035EABdA16B5416B26E12156483C6B6F56451" 123456789
      { code := "CALL_EXCEPTION", message := "boom" } (.error "usdc read failed")
      (.error "aToken read failed") 0 0 42 1760000000 "unused").1

end NearMpcOracle
